import Mathlib

/-!
Verification of the query-execution core of a guarded DuckDB gateway
(`src/dems/database.py` and the `execute_query` tool of `src/dems/mcp.py`).

The embedding is shallow: the engine (duckdb) and the filesystem are
modelled as explicit behaviour parameters, Python exceptions become an
error type threaded through `Except`, and every call records the trace of
connection-level events it performs (`execute`, `fetchall`, `interrupt`),
so that "the engine is never invoked" and "interrupt precedes the timeout
report" are statements about that trace.
-/

/-- Scalar values appearing in result rows.  Numeric and textual scalars of
the engine are modelled by `int` and `text`; SQL NULL / Python `None` by
`null`. -/
inductive Value where
  | null : Value
  | int : Int → Value
  | text : String → Value
deriving DecidableEq

/-- Python exceptions raised by the code of `database.py` or by the engine.
`duckIOException` and `catalogException` are the engine's native
`duckdb.IOException` and `duckdb.CatalogException`; `duckDBException` is the
repository's own wrapper class `DuckDBException`. -/
inductive PyError where
  | valueError : String → PyError
  | timeoutError : String → PyError
  | fileNotFound : String → PyError
  | ioError : String → PyError
  | duckIOException : String → PyError
  | catalogException : String → PyError
  | duckDBException : String → PyError
  | typeError : String → PyError
  | indexError : PyError
deriving DecidableEq

/-- The engine's response to executing (and, when asked, fetching) one
statement: either the fetched rows or a raised exception. -/
inductive EngineReply where
  | ok : List (List Value) → EngineReply
  | err : PyError → EngineReply

/-- One call's environment: the engine's behaviour per statement text,
whether the worker thread finishes within `timeout_in_seconds`
(`inTime = false` models `future.result` raising `futures.TimeoutError`),
and the printed form of `timeout_in_seconds` used in the timeout message. -/
structure Env where
  reply : String → EngineReply
  inTime : Bool
  timeoutRepr : String

/-- Connection-level events, in the order they are issued. -/
inductive ConnEvent where
  | execute : String → ConnEvent
  | fetchall : String → ConnEvent
  | interrupt : ConnEvent
deriving DecidableEq

/-- Successful result of `safe_execute_query`: either the fully fetched row
set, or the live result handle returned for `INSERT` statements (tagged by
the statement it came from). -/
inductive ExecValue where
  | rows : List (List Value) → ExecValue
  | cursor : String → ExecValue
deriving DecidableEq

/-! ## The statement gate: `re.search(r"\b(DELETE|DROP|UPDATE)\b", query, re.IGNORECASE)` -/

/-- A regex word character (`\w`): letter, digit or underscore. -/
def isWordChar (c : Char) : Bool := c.isAlphanum || c == '_'

/-- Boundary condition to the left of a match: start of string or a
non-word character. -/
def boundaryL : Option Char → Bool
  | none => true
  | some c => !isWordChar c

/-- Boundary condition to the right of a match: end of string or a
non-word character. -/
def boundaryR : List Char → Bool
  | [] => true
  | c :: _ => !isWordChar c

/-- Case-insensitive match of the (upper-case) keyword `kw` against a
prefix of `s`, as `re.IGNORECASE` does. -/
def matchesCIAt : List Char → List Char → Bool
  | [], _ => true
  | _ :: _, [] => false
  | k :: ks, c :: cs => (c.toUpper == k) && matchesCIAt ks cs

/-- The keyword matches at the head of `s` with a word boundary after it. -/
def kwMatchAt (kw s : List Char) : Bool :=
  matchesCIAt kw s && boundaryR (s.drop kw.length)

/-- Left-to-right scan of `re.search`: at each position, with the previous
character in hand, try every alternative of the group with both word
boundaries. -/
def scanAny (kws : List (List Char)) : Option Char → List Char → Bool
  | _, [] => false
  | prev, c :: cs =>
      (boundaryL prev && kws.any (fun kw => kwMatchAt kw (c :: cs)))
        || scanAny kws (some c) cs

/-- The denylist of the gate, in the alternation order of the regex. -/
def deniedList : List (List Char) := ["DELETE".data, "DROP".data, "UPDATE".data]

/-- Whether `re.search` with pattern `\b(DELETE|DROP|UPDATE)\b` and
`re.IGNORECASE` finds a match in `query`. -/
def containsDenied (query : String) : Bool := scanAny deniedList none query.data

/-- A single keyword occurs as a case-insensitive whole word in `query`. -/
def containsWord (kw : List Char) (query : String) : Bool :=
  scanAny [kw] none query.data

/-! ## Declarative reading of the gate, used to state claim C1 -/

/-- The character immediately preceding a match that begins after `pre`,
when the character before `pre` is `prev`. -/
def prevCharOf (prev : Option Char) : List Char → Option Char
  | [] => prev
  | c :: cs => prevCharOf (some c) cs

/-- Declaratively: the (upper-case) keyword `kw` occurs in `s` as a
case-insensitive whole word, given that the character before `s` is
`prev`. -/
def WordOccurs (kw : List Char) (prev : Option Char) (s : List Char) : Prop :=
  ∃ pre w post, s = pre ++ w ++ post ∧ w.map Char.toUpper = kw ∧
    boundaryL (prevCharOf prev pre) = true ∧ boundaryR post = true

/-- Declaratively: some denylisted keyword occurs in `query` as a
case-insensitive whole word anywhere in the text. -/
def SpecDenied (query : String) : Prop :=
  ∃ kw ∈ deniedList, WordOccurs kw none query.data

/-! ## `safe_execute_query` -/

/-- The message of the `ValueError` raised by the gate. -/
def forbiddenMsg : String := "DELETE, DROP and UPDATE operations are not allowed"

/-- The message of the `TimeoutError`, naming the configured timeout. -/
def timeoutMsg (tr : String) : String :=
  "Query exceeded timeout of " ++ tr ++ " s and was interrupted."

/-- Python `query.strip()` on the character list. -/
def pyStrip (s : List Char) : List Char :=
  ((s.dropWhile Char.isWhitespace).reverse.dropWhile Char.isWhitespace).reverse

/-- Exact (case-sensitive) prefix test, Python `startswith`. -/
def startsWithList : List Char → List Char → Bool
  | [], _ => true
  | _ :: _, [] => false
  | a :: as, b :: bs => (a == b) && startsWithList as bs

/-- Python `query.strip().upper().startswith("INSERT")`. -/
def isInsertStmt (query : String) : Bool :=
  startsWithList "INSERT".data ((pyStrip query.data).map Char.toUpper)

/-- Model of `DuckDB.safe_execute_query`: gate the statement, run it on the
single-worker executor, on the `INSERT` branch return the live handle
without fetching, otherwise fetch all rows; on timeout interrupt the
connection and then raise `TimeoutError`.  The first component is the
trace of connection events, issued before the returned outcome. -/
def safe_execute_query (env : Env) (query : String) :
    List ConnEvent × Except PyError ExecValue :=
  if containsDenied query then
    ([], .error (.valueError forbiddenMsg))
  else if env.inTime then
    if isInsertStmt query then
      match env.reply query with
      | .ok _ => ([.execute query], .ok (.cursor query))
      | .err e => ([.execute query], .error e)
    else
      match env.reply query with
      | .ok rows => ([.execute query, .fetchall query], .ok (.rows rows))
      | .err e => ([.execute query], .error e)
  else
    ([.execute query, .interrupt],
      .error (.timeoutError (timeoutMsg env.timeoutRepr)))

/-- The outcome of `safe_execute_query`, trace dropped. -/
def runQuery (env : Env) (query : String) : Except PyError ExecValue :=
  (safe_execute_query env query).2

/-! ## Projector operations -/

/-- The statement text of `get_sample_data`. -/
def sampleQuery (table_name : String) (num_rows : Nat) : String :=
  "SELECT * FROM " ++ table_name ++ " LIMIT " ++ toString num_rows

/-- Model of `DuckDB.get_sample_data`: run the sample query, catching the engine's
`duckdb.CatalogException` and re-raising it wrapped in `DuckDBException`;
every other error propagates untouched. -/
def get_sample_data (env : Env) (table_name : String) (num_rows : Nat) :
    Except PyError ExecValue :=
  match runQuery env (sampleQuery table_name num_rows) with
  | .error (.catalogException m) => .error (.duckDBException m)
  | r => r

/-- Python subscript `l[k]`: the element, or an `IndexError` past the end. -/
def pyIndex {α : Type} (l : List α) (k : Nat) : Except PyError α :=
  match l.get? k with
  | some v => .ok v
  | none => .error .indexError

/-- Python truthiness `bool(x)` on a scalar. -/
def pyBool : Value → Bool
  | .null => false
  | .int n => n != 0
  | .text s => s != ""

/-- Iterating / subscripting the value returned by `safe_execute_query`:
a row list iterates as itself; a live handle is not iterable
(`TypeError`), though that branch is unreachable for the non-`INSERT`
statements these operations issue. -/
def asRows : ExecValue → Except PyError (List (List Value))
  | .rows rs => .ok rs
  | .cursor _ => .error (.typeError "DuckDBPyConnection object is not iterable")

/-- One column descriptor assembled from a `PRAGMA table_info` row. -/
structure ColumnInfo where
  name : Value
  type : Value
  not_null : Bool
  primary_key : Bool
deriving DecidableEq

/-- The dict `name: col_data[1], type: col_data[2], not_null:
bool(col_data[3]), primary_key: bool(col_data[5])` of the source. -/
def buildColumn (col_data : List Value) : Except PyError ColumnInfo := do
  let n ← pyIndex col_data 1
  let t ← pyIndex col_data 2
  let nn ← pyIndex col_data 3
  let pk ← pyIndex col_data 5
  .ok ⟨n, t, pyBool nn, pyBool pk⟩

/-- One per-column statistic record assembled from a `SUMMARIZE` row. -/
structure StatRecord where
  column : Value
  count : Value
  count_distinct : Value
  null_count : Value
  min : Value
  max : Value
  avg : Value
  std : Value
  q25 : Value
  q50 : Value
  q75 : Value
  mode : Option Value
deriving DecidableEq

/-- The positional mapping of one `SUMMARIZE` row: `row[0]` … `row[10]`
unguarded (an `IndexError` past the end), and
`row[11] if len(row) > 11 else None` for `mode`. -/
def buildStat (row : List Value) : Except PyError StatRecord := do
  let c0 ← pyIndex row 0
  let c1 ← pyIndex row 1
  let c2 ← pyIndex row 2
  let c3 ← pyIndex row 3
  let c4 ← pyIndex row 4
  let c5 ← pyIndex row 5
  let c6 ← pyIndex row 6
  let c7 ← pyIndex row 7
  let c8 ← pyIndex row 8
  let c9 ← pyIndex row 9
  let c10 ← pyIndex row 10
  .ok ⟨c0, c1, c2, c3, c4, c5, c6, c7, c8, c9, c10,
        if 11 < row.length then row.get? 11 else none⟩

/-- The bundle returned by `get_table_schema_and_stats`. -/
structure SchemaStats where
  table_name : String
  columns : List ColumnInfo
  row_count : Value
  statistics : List StatRecord
deriving DecidableEq

def pragmaQuery (table_name : String) : String :=
  "PRAGMA table_info(" ++ table_name ++ ")"

def countQuery (table_name : String) : String :=
  "SELECT COUNT(*) FROM " ++ table_name

def summarizeQuery (table_name : String) : String :=
  "SUMMARIZE " ++ table_name

/-- Model of `DuckDB.get_table_schema_and_stats`: three dependent queries (column
introspection, row count, `SUMMARIZE`) assembled positionally.  Unlike
`get_sample_data`, no exception is caught here: engine errors, including
`duckdb.CatalogException` for an unknown table, propagate unwrapped. -/
def get_table_schema_and_stats (env : Env) (table_name : String) :
    Except PyError SchemaStats := do
  let sv ← runQuery env (pragmaQuery table_name)
  let schemaRows ← asRows sv
  let columns ← schemaRows.mapM buildColumn
  let cv ← runQuery env (countQuery table_name)
  let countRows ← asRows cv
  let countRow ← pyIndex countRows 0
  let row_count ← pyIndex countRow 0
  let stv ← runQuery env (summarizeQuery table_name)
  let statRows ← asRows stv
  let statistics ← statRows.mapM buildStat
  .ok ⟨table_name, columns, row_count, statistics⟩

/-! ## Importer -/

/-- Python `format_type.lower()`. -/
def pyLower (s : String) : String := ⟨s.data.map Char.toLower⟩

/-- The `CREATE TABLE … AS SELECT * FROM read_csv/read_json('…')` statement
built (and closed with `")"`) by `import_data`, or `none` when the format
is neither csv nor json case-insensitively. -/
def importQuery (format_type table_name file_path : String) : Option String :=
  if pyLower format_type = "csv" then
    some ("CREATE TABLE " ++ table_name ++ " AS SELECT * FROM read_csv(\x27"
      ++ file_path ++ "\x27" ++ ")")
  else if pyLower format_type = "json" then
    some ("CREATE TABLE " ++ table_name ++ " AS SELECT * FROM read_json(\x27"
      ++ file_path ++ "\x27" ++ ")")
  else none

/-- Model of `DuckDB.import_data`: existence check first, then the format branch,
then the single CREATE statement routed through `safe_execute_query`
(whose value is discarded), returning `True`. -/
def import_data (env : Env) (fileOnDisk : Bool)
    (format_type table_name file_path : String) : Except PyError Bool :=
  if fileOnDisk = false then
    .error (.fileNotFound ("File not found: " ++ file_path))
  else
    match importQuery format_type table_name file_path with
    | none =>
        .error (.valueError "Unsupported file format. Supported formats are CSV and JSON.")
    | some qy =>
        match runQuery env qy with
        | .ok _ => .ok true
        | .error e => .error e

/-! ## Validator -/

/-- The explain wrapper built by `is_valid_sql`. -/
def explainQuery (query : String) : String := "EXPLAIN (FORMAT JSON) " ++ query

/-- Model of `DuckDB.is_valid_sql`: execute the explain wrapper directly on the
connection (no gate, no executor), `fetchone()[0]`, any exception caught
and collapsed to `False`.  The first component is the trace of connection
events: only the explain statement ever reaches the connection. -/
def is_valid_sql (env : Env) (query : String) : List ConnEvent × Bool :=
  ([.execute (explainQuery query)],
    match env.reply (explainQuery query) with
    | .err _ => false
    | .ok [] => false
    | .ok ([] :: _) => false
    | .ok ((_ :: _) :: _) => true)

/-! ## Connection manager -/

/-- Filesystem-level events of `open_database`. -/
inductive OpenEvent where
  | createSample : List String → OpenEvent
  | connectCall : String → OpenEvent
deriving DecidableEq

/-- The reserved bootstrap identifier. -/
def reservedBootstrapPath : String := "test_sample_db.duckdb"

/-- The tables created, in order, by `create_db_with_sample_data`
(`sample_db.py`). -/
def sampleTables : List String := ["authors", "books", "reviews"]

/-- Model of `DuckDB.open_database`: a missing path either bootstraps the sample
dataset (for the one reserved identifier) or raises `FileNotFoundError`;
then `duckdb.connect` runs, its native `duckdb.IOException` caught and
re-raised as `IOError`.  `connectOutcome` is the behaviour of
`duckdb.connect` at this path. -/
def open_database (pathOnDisk : Bool) (connectOutcome : Except PyError Unit)
    (database_path : String) : List OpenEvent × Except PyError Unit :=
  if pathOnDisk = false ∧ database_path ≠ reservedBootstrapPath then
    ([], .error (.fileNotFound ("Database file not found: " ++ database_path)))
  else
    let pre : List OpenEvent :=
      if pathOnDisk then [] else [.createSample sampleTables]
    match connectOutcome with
    | .ok _ => (pre ++ [.connectCall database_path], .ok ())
    | .error (.duckIOException m) =>
        (pre ++ [.connectCall database_path],
          .error (.ioError ("Error opening database: " ++ m)))
    | .error e => (pre ++ [.connectCall database_path], .error e)

/-! ## The `execute_query` tool of `mcp.py` -/

/-- The tool-layer `execute_query`: its body calls
`db.safe_execute_query(query)` and has no `return`, so on success the tool
returns Python `None` (modelled `none`) and the fetched value is
discarded; exceptions propagate. -/
def execute_query (env : Env) (query : String) :
    Except PyError (Option ExecValue) :=
  match (safe_execute_query env query).2 with
  | .ok _ => .ok none
  | .error e => .error e

/-! ## Concrete environments used by witnesses and counterexamples -/

/-- An engine that answers every statement with one one-cell row, in time. -/
def envW : Env := ⟨fun _ => .ok [[.text "plan"]], true, "60.0"⟩

/-- An engine whose worker never finishes within the timeout. -/
def envT : Env := ⟨fun _ => .ok [], false, "60.0"⟩

/-- An engine that raises `duckdb.CatalogException` on every statement. -/
def envCat : Env :=
  ⟨fun _ => .err (.catalogException "Table with name missing does not exist!"),
    true, "60.0"⟩

/-- A ten-column summary row (fewer than the eleven unguarded positions). -/
def r10 : List Value :=
  [.text "c", .int 8, .int 5, .int 0, .null, .null, .null, .null, .null, .null]

/-- An engine for `get_table_schema_and_stats` on table `t`: empty column
introspection, a zero count, and one ten-column `SUMMARIZE` row. -/
def replyStats : String → EngineReply := fun s =>
  if s = pragmaQuery "t" then .ok []
  else if s = countQuery "t" then .ok [[.int 0]]
  else if s = summarizeQuery "t" then .ok [r10]
  else .err (.catalogException "unexpected statement")

def envStats : Env := ⟨replyStats, true, "60.0"⟩

/-- Decidable equality of outcomes, for evaluating the model on concrete
inputs. -/
instance {e : Type} {a : Type} [DecidableEq e] [DecidableEq a] :
    DecidableEq (Except e a) := fun x y =>
  match x, y with
  | .error u, .error v => decidable_of_iff (u = v) (by simp)
  | .ok u, .ok v => decidable_of_iff (u = v) (by simp)
  | .error _, .ok _ => .isFalse (by simp)
  | .ok _, .error _ => .isFalse (by simp)

/-! ## Characterization of the regex scan -/

theorem matchesCIAt_iff (kw : List Char) : ∀ s : List Char,
    matchesCIAt kw s = true ↔ ∃ w post, s = w ++ post ∧ w.map Char.toUpper = kw := by
  induction kw with
  | nil =>
      intro s
      simp [matchesCIAt]
  | cons k ks ih =>
      intro s
      cases s with
      | nil =>
          simp only [matchesCIAt, Bool.false_eq_true, false_iff]
          rintro ⟨w, post, h1, h2⟩
          rcases List.append_eq_nil.mp h1.symm with ⟨rfl, rfl⟩
          simp at h2
      | cons c cs =>
          simp only [matchesCIAt, Bool.and_eq_true, beq_iff_eq, ih]
          constructor
          · rintro ⟨hk, w, post, rfl, hmap⟩
            exact ⟨c :: w, post, rfl, by simp [hmap, hk]⟩
          · rintro ⟨w, post, heq, hmap⟩
            cases w with
            | nil => simp at hmap
            | cons c' w' =>
                simp only [List.cons_append, List.cons.injEq] at heq
                obtain ⟨rfl, rfl⟩ := heq
                simp only [List.map_cons, List.cons.injEq] at hmap
                exact ⟨hmap.1, w', post, rfl, hmap.2⟩

theorem scanAny_iff (kws : List (List Char)) (hne : ∀ kw ∈ kws, kw ≠ []) :
    ∀ (s : List Char) (prev : Option Char),
      scanAny kws prev s = true ↔ ∃ kw ∈ kws, WordOccurs kw prev s := by
  intro s
  induction s with
  | nil =>
      intro prev
      rw [scanAny]
      simp only [Bool.false_eq_true, false_iff, not_exists]
      intro kw hkw
      obtain ⟨hkwmem, pre, w, post, h1, h2, -, -⟩ := hkw
      rcases List.append_eq_nil.mp (List.append_eq_nil.mp h1.symm).1 with ⟨-, rfl⟩
      exact hne kw hkwmem (h2 ▸ rfl)
  | cons c cs ih =>
      intro prev
      rw [scanAny]
      simp only [Bool.or_eq_true, Bool.and_eq_true, List.any_eq_true]
      rw [ih (some c)]
      constructor
      · rintro (⟨hb, kw, hkw, hm⟩ | ⟨kw, hkw, pre, w, post, heq, hmap, hbl, hbr⟩)
        · simp only [kwMatchAt, Bool.and_eq_true] at hm
          obtain ⟨hci, hdr⟩ := hm
          obtain ⟨w, post, heq, hmap⟩ := (matchesCIAt_iff kw (c :: cs)).mp hci
          refine ⟨kw, hkw, [], w, post, by simpa using heq, hmap, ?_, ?_⟩
          · simpa [prevCharOf] using hb
          · have hlen : kw.length = w.length := by
              rw [← hmap, List.length_map]
            rw [heq, hlen, List.drop_left] at hdr
            exact hdr
        · exact ⟨kw, hkw, c :: pre, w, post, by simp [heq], hmap, hbl, hbr⟩
      · rintro ⟨kw, hkw, pre, w, post, heq, hmap, hbl, hbr⟩
        cases pre with
        | nil =>
            left
            simp only [List.nil_append] at heq
            refine ⟨by simpa [prevCharOf] using hbl, kw, hkw, ?_⟩
            simp only [kwMatchAt, Bool.and_eq_true]
            constructor
            · exact (matchesCIAt_iff kw (c :: cs)).mpr ⟨w, post, heq, hmap⟩
            · have hlen : kw.length = w.length := by
                rw [← hmap, List.length_map]
              rw [heq, hlen, List.drop_left]
              exact hbr
        | cons p pre' =>
            right
            simp only [List.cons_append, List.cons.injEq] at heq
            obtain ⟨rfl, heq'⟩ := heq
            exact ⟨kw, hkw, pre', w, post, heq', hmap, hbl, hbr⟩

theorem containsDenied_iff (query : String) :
    containsDenied query = true ↔ SpecDenied query :=
  scanAny_iff deniedList (by decide) query.data none

/-! ## Helper lemmas on `runQuery` -/

theorem runQuery_err (env : Env) (q : String) (e : PyError)
    (hg : containsDenied q = false) (ht : env.inTime = true)
    (hr : env.reply q = .err e) : runQuery env q = .error e := by
  cases hins : isInsertStmt q <;>
    simp [runQuery, safe_execute_query, hg, ht, hins, hr]

theorem runQuery_timeout (env : Env) (q : String)
    (hg : containsDenied q = false) (ht : env.inTime = false) :
    runQuery env q = .error (.timeoutError (timeoutMsg env.timeoutRepr)) := by
  simp [runQuery, safe_execute_query, hg, ht]

theorem runQuery_ok (env : Env) (q : String) (rs : List (List Value))
    (hg : containsDenied q = false) (ht : env.inTime = true)
    (hr : env.reply q = .ok rs) : ∃ v, runQuery env q = .ok v := by
  cases hins : isInsertStmt q
  · exact ⟨.rows rs, by simp [runQuery, safe_execute_query, hg, ht, hins, hr]⟩
  · exact ⟨.cursor q, by simp [runQuery, safe_execute_query, hg, ht, hins, hr]⟩

/-! ## Claims -/

/-- C1: for every SQL string containing DELETE, DROP or UPDATE as a
case-insensitive whole word anywhere in the text (the declarative reading
`SpecDenied`, proved equivalent to the source's regex scan),
`safe_execute_query` raises the Forbidden `ValueError` with an empty
connection trace — the engine is never invoked; for every string with no
such match, the first connection event executes the statement exactly as
given, with no rewriting or normalization. -/
theorem gate_blocks_denied_and_passes_rest_unchanged (env : Env) (q : String) :
    (SpecDenied q ↔ containsDenied q = true)
    ∧ (containsDenied q = true →
        safe_execute_query env q = ([], .error (.valueError forbiddenMsg)))
    ∧ (containsDenied q = false →
        (safe_execute_query env q).1.head? = some (.execute q)) := by
  refine ⟨(containsDenied_iff q).symm, ?_, ?_⟩
  · intro h
    simp [safe_execute_query, h]
  · intro h
    cases henv : env.inTime <;> cases hins : isInsertStmt q <;>
      rcases hr : env.reply q with rs | e <;>
        simp [safe_execute_query, h, henv, hins, hr]

/-- Witness for C1: a lower-case `delete` inside a trailing comment of a
CTE-plus-subquery statement is denied with an untouched connection, and a
plain `SELECT 1` reaches the engine verbatim. -/
theorem gate_blocks_denied_and_passes_rest_unchanged_witness :
    safe_execute_query envW
        "WITH c AS (SELECT 1) SELECT * FROM c WHERE x IN (SELECT y FROM t) -- delete"
      = ([], .error (.valueError forbiddenMsg))
    ∧ (safe_execute_query envW "SELECT 1").1.head? = some (.execute "SELECT 1") :=
  ⟨(gate_blocks_denied_and_passes_rest_unchanged envW
      "WITH c AS (SELECT 1) SELECT * FROM c WHERE x IN (SELECT y FROM t) -- delete").2.1
      (by decide),
    (gate_blocks_denied_and_passes_rest_unchanged envW "SELECT 1").2.2 (by decide)⟩

/-- C2: whenever the worker has not completed within the timeout (and the
statement passed the gate, so an execution is in flight), the connection
trace is the execution followed by the interrupt, and only after that
trace does the call report the `TimeoutError`, whose message names the
configured timeout value; the interrupt is the last connection event
before the error is raised. -/
theorem timeout_interrupts_before_reporting (env : Env) (q : String)
    (hg : containsDenied q = false) (ht : env.inTime = false) :
    safe_execute_query env q =
      ([.execute q, .interrupt],
        .error (.timeoutError ("Query exceeded timeout of " ++ env.timeoutRepr
          ++ " s and was interrupted.")))
    ∧ (safe_execute_query env q).1.getLast? = some .interrupt := by
  constructor
  · simp [safe_execute_query, hg, ht, timeoutMsg]
  · simp [safe_execute_query, hg, ht]

/-- Witness for C2: a slow statement under `envT` (worker never finishes in
time) is interrupted and then reported with the configured "60.0" in the
message. -/
theorem timeout_interrupts_before_reporting_witness :
    safe_execute_query envT "SELECT * FROM huge_table"
      = ([.execute "SELECT * FROM huge_table", .interrupt],
          .error (.timeoutError ("Query exceeded timeout of " ++ "60.0"
            ++ " s and was interrupted.")))
    ∧ (safe_execute_query envT "SELECT * FROM huge_table").1.getLast?
        = some .interrupt :=
  timeout_interrupts_before_reporting envT "SELECT * FROM huge_table"
    (by decide) (by decide)

/-- C3: for a gated statement executed in time, if the statement (after
stripping surrounding whitespace, case-insensitively) begins with INSERT
the executor returns the live cursor without any fetch event; for every
other statement kind it fetches all rows and returns the fully fetched
row set. -/
theorem insert_returns_cursor_others_fetch_all (env : Env) (q : String)
    (hg : containsDenied q = false) (ht : env.inTime = true) :
    (isInsertStmt q = true → ∀ rs, env.reply q = .ok rs →
        safe_execute_query env q = ([.execute q], .ok (.cursor q)))
    ∧ (isInsertStmt q = false → ∀ rs, env.reply q = .ok rs →
        safe_execute_query env q
          = ([.execute q, .fetchall q], .ok (.rows rs))) := by
  constructor <;> intro hins rs hr <;>
    simp [safe_execute_query, hg, ht, hins, hr]

/-- Witness for C3: an `  insert …` statement (leading whitespace, lower
case) yields the live cursor with no fetch; a `SELECT 1` yields the
fetched rows. -/
theorem insert_returns_cursor_others_fetch_all_witness :
    safe_execute_query envW "  insert into t VALUES (1)"
      = ([.execute "  insert into t VALUES (1)"],
          .ok (.cursor "  insert into t VALUES (1)"))
    ∧ safe_execute_query envW "SELECT 1"
      = ([.execute "SELECT 1", .fetchall "SELECT 1"],
          .ok (.rows [[.text "plan"]])) :=
  ⟨(insert_returns_cursor_others_fetch_all envW "  insert into t VALUES (1)"
      (by decide) (by decide)).1 (by decide) [[.text "plan"]] rfl,
    (insert_returns_cursor_others_fetch_all envW "SELECT 1"
      (by decide) (by decide)).2 (by decide) [[.text "plan"]] rfl⟩

theorem except_error_bind {e : Type} {a b : Type} (u : e) (f : a → Except e b) :
    (Except.error u >>= f) = Except.error u := rfl

/-- C4: `open_database` on a missing path that is not the reserved
bootstrap identifier fails with `FileNotFoundError` (no filesystem or
engine event); on the missing reserved identifier it synthesizes the
three-table sample dataset (authors, books, reviews) before connecting;
and when the file exists but `duckdb.connect` raises its native
`duckdb.IOException`, the call fails with an `IOError` wrapping the
engine message rather than the native exception. -/
theorem open_database_bootstrap_and_wrapping (onDisk : Bool)
    (co : Except PyError Unit) (path : String) :
    (onDisk = false → path ≠ reservedBootstrapPath →
      open_database onDisk co path =
        ([], .error (.fileNotFound ("Database file not found: " ++ path))))
    ∧ (onDisk = false → path = reservedBootstrapPath →
      (open_database onDisk co path).1 =
        [.createSample ["authors", "books", "reviews"], .connectCall path])
    ∧ (onDisk = true → ∀ m, co = .error (.duckIOException m) →
      open_database onDisk co path =
        ([.connectCall path], .error (.ioError ("Error opening database: " ++ m)))) := by
  refine ⟨?_, ?_, ?_⟩
  · rintro rfl hne
    simp [open_database, hne]
  · rintro rfl rfl
    rcases co with e | v
    · cases e <;> simp [open_database, sampleTables]
    · simp [open_database, sampleTables]
  · rintro rfl m rfl
    simp [open_database]

/-- Witness for C4: the three branches at concrete paths — a missing
non-reserved path, the missing reserved path, and an existing file on
which the engine raises its native IO exception. -/
theorem open_database_bootstrap_and_wrapping_witness :
    open_database false (.ok ()) "nope.duckdb"
      = ([], .error (.fileNotFound ("Database file not found: " ++ "nope.duckdb")))
    ∧ (open_database false (.ok ()) "test_sample_db.duckdb").1
      = [.createSample ["authors", "books", "reviews"],
          .connectCall "test_sample_db.duckdb"]
    ∧ open_database true (.error (.duckIOException "not a valid DuckDB database file"))
        "invalid_db_path.duckdb"
      = ([.connectCall "invalid_db_path.duckdb"],
          .error (.ioError ("Error opening database: "
            ++ "not a valid DuckDB database file"))) :=
  ⟨(open_database_bootstrap_and_wrapping false (.ok ()) "nope.duckdb").1
      rfl (by decide),
    (open_database_bootstrap_and_wrapping false (.ok ())
      "test_sample_db.duckdb").2.1 rfl rfl,
    (open_database_bootstrap_and_wrapping true
      (.error (.duckIOException "not a valid DuckDB database file"))
      "invalid_db_path.duckdb").2.2 rfl
      "not a valid DuckDB database file" rfl⟩

/-- C5 counterexample: with an engine that raises `duckdb.CatalogException`
for the unknown table, `get_sample_data` surfaces the repository's wrapper
`DuckDBException`, while `get_table_schema_and_stats` lets the engine's
`CatalogException` through unwrapped — the two operations do not fail with
the same wrapped error, refuting the claim. -/
theorem unknown_table_error_not_uniform_cex :
    get_sample_data envCat "missing" 10
      = .error (.duckDBException "Table with name missing does not exist!")
    ∧ get_table_schema_and_stats envCat "missing"
      = .error (.catalogException "Table with name missing does not exist!")
    ∧ PyError.catalogException "Table with name missing does not exist!"
        ≠ PyError.duckDBException "Table with name missing does not exist!" := by
  refine ⟨by decide, by decide, by decide⟩

/-- C5 amended: on an unknown table, `get_sample_data` fails with the
engine's catalog error wrapped in the gateway's `DuckDBException`, but
`get_table_schema_and_stats` propagates the engine's `CatalogException`
unwrapped — the failure is not surfaced uniformly across the two
operations. -/
theorem unknown_table_wrapped_only_in_sample (env : Env) (t : String)
    (n : Nat) (m : String) (ht : env.inTime = true) :
    (containsDenied (sampleQuery t n) = false →
      env.reply (sampleQuery t n) = .err (.catalogException m) →
      get_sample_data env t n = .error (.duckDBException m))
    ∧ (containsDenied (pragmaQuery t) = false →
      env.reply (pragmaQuery t) = .err (.catalogException m) →
      get_table_schema_and_stats env t = .error (.catalogException m)) := by
  constructor
  · intro hg hr
    have h := runQuery_err env (sampleQuery t n) (.catalogException m) hg ht hr
    simp [get_sample_data, h]
  · intro hg hr
    have h := runQuery_err env (pragmaQuery t) (.catalogException m) hg ht hr
    simp [get_table_schema_and_stats, h, except_error_bind]

/-- Witness for C5 (amended): the two operations at the concrete unknown
table `missing` under `envCat`. -/
theorem unknown_table_wrapped_only_in_sample_witness :
    get_sample_data envCat "missing" 10
      = .error (.duckDBException "Table with name missing does not exist!")
    ∧ get_table_schema_and_stats envCat "missing"
      = .error (.catalogException "Table with name missing does not exist!") :=
  ⟨(unknown_table_wrapped_only_in_sample envCat "missing" 10
      "Table with name missing does not exist!" (by decide)).1 (by decide) rfl,
    (unknown_table_wrapped_only_in_sample envCat "missing" 10
      "Table with name missing does not exist!" (by decide)).2 (by decide) rfl⟩

/-- C6 counterexample: the statement `DROP TABLE authors` contains no
whole-word DELETE, yet the Forbidden error it triggers carries a message
in which DELETE occurs as a whole word — the denial reason is a fixed
message, not the specific keyword(s) found in the statement. -/
theorem forbidden_reason_names_absent_keyword_cex :
    (safe_execute_query envW "DROP TABLE authors").2
      = .error (.valueError forbiddenMsg)
    ∧ containsWord "DELETE".data "DROP TABLE authors" = false
    ∧ containsWord "DELETE".data forbiddenMsg = true := by
  refine ⟨by decide, by decide, by decide⟩

/-- C6 amended: every denied statement fails with the same fixed
`ValueError` message "DELETE, DROP and UPDATE operations are not allowed",
which lists the entire denylist regardless of which keyword matched. -/
theorem forbidden_reason_is_fixed_message (env : Env) (q : String)
    (h : containsDenied q = true) :
    (safe_execute_query env q).2 = .error (.valueError forbiddenMsg)
    ∧ (∀ kw ∈ deniedList, containsWord kw forbiddenMsg = true) := by
  refine ⟨by simp [safe_execute_query, h], by decide⟩

/-- Witness for C6 (amended): the fixed message at the concrete statement
`DROP TABLE authors`. -/
theorem forbidden_reason_is_fixed_message_witness :
    (safe_execute_query envW "DROP TABLE authors").2
      = .error (.valueError forbiddenMsg)
    ∧ (∀ kw ∈ deniedList, containsWord kw forbiddenMsg = true) :=
  forbidden_reason_is_fixed_message envW "DROP TABLE authors" (by decide)

/-- C7: `is_valid_sql` only ever sends the explain wrapper to the
connection (never the raw statement, and without consulting the gate), it
collapses any engine failure during planning to `false` (its result is a
total boolean, so it never raises), and a statement containing the
denylisted DELETE can still validate to `true` without being executed. -/
theorem is_valid_sql_collapses_and_bypasses_gate (env : Env) (q : String) :
    (is_valid_sql env q).1 = [.execute (explainQuery q)]
    ∧ (∀ e, env.reply (explainQuery q) = .err e → (is_valid_sql env q).2 = false)
    ∧ (containsDenied "DELETE FROM authors" = true
        ∧ (is_valid_sql envW "DELETE FROM authors").2 = true
        ∧ (is_valid_sql envW "DELETE FROM authors").1
            = [.execute (explainQuery "DELETE FROM authors")]) := by
  refine ⟨rfl, ?_, by decide, by decide, rfl⟩
  intro e hr
  simp [is_valid_sql, hr]

/-- Witness for C7: under `envCat` every planning attempt raises the
catalog error, and validation of a statement over a missing table returns
`false`. -/
theorem is_valid_sql_collapses_and_bypasses_gate_witness :
    (is_valid_sql envCat "SELECT * FROM missing").2 = false :=
  (is_valid_sql_collapses_and_bypasses_gate envCat "SELECT * FROM missing").2.1
    (.catalogException "Table with name missing does not exist!") rfl

/-- C8 counterexample: importing a CSV into a table named `drop` builds a
CREATE statement that the gate rejects with the Forbidden `ValueError`,
so the import statement is not "never rejected" — the denylist does apply
to it through the interpolated table name. -/
theorem import_rejected_for_denylisted_table_name_cex :
    importQuery "csv" "drop" "/tmp/a.csv"
      = some "CREATE TABLE drop AS SELECT * FROM read_csv(\x27/tmp/a.csv\x27)"
    ∧ import_data envW true "csv" "drop" "/tmp/a.csv"
      = .error (.valueError forbiddenMsg) := by
  refine ⟨by decide, by decide⟩

/-- C8 amended: for either supported format, import builds a single
`CREATE TABLE … AS SELECT` statement and routes it through the bounded
executor — subject to the timeout — and, whenever the interpolated
statement contains no denylisted whole word (CREATE itself is not
denied), it is not rejected by the gate: the outcome is the engine's,
or the timeout. -/
theorem import_routed_through_bounded_executor (env : Env)
    (fmt t p qy : String) (hq : importQuery fmt t p = some qy)
    (hg : containsDenied qy = false) :
    (env.inTime = false →
      import_data env true fmt t p
        = .error (.timeoutError (timeoutMsg env.timeoutRepr)))
    ∧ (env.inTime = true → ∀ rs, env.reply qy = .ok rs →
      import_data env true fmt t p = .ok true)
    ∧ (env.inTime = true → ∀ e, env.reply qy = .err e →
      import_data env true fmt t p = .error e) := by
  refine ⟨?_, ?_, ?_⟩
  · intro ht
    have h := runQuery_timeout env qy hg ht
    simp [import_data, hq, h]
  · intro ht rs hr
    obtain ⟨v, hv⟩ := runQuery_ok env qy rs hg ht hr
    simp [import_data, hq, hv]
  · intro ht e hr
    have h := runQuery_err env qy e hg ht hr
    simp [import_data, hq, h]

/-- Witness for C8 (amended): a clean import statement under the three
environments — timing out, succeeding, and failing in the engine. -/
theorem import_routed_through_bounded_executor_witness :
    import_data envT true "csv" "t1" "/tmp/a.csv"
      = .error (.timeoutError (timeoutMsg "60.0"))
    ∧ import_data envW true "csv" "t1" "/tmp/a.csv" = .ok true
    ∧ import_data envCat true "csv" "t1" "/tmp/a.csv"
      = .error (.catalogException "Table with name missing does not exist!") :=
  ⟨(import_routed_through_bounded_executor envT "csv" "t1" "/tmp/a.csv"
      "CREATE TABLE t1 AS SELECT * FROM read_csv(\x27/tmp/a.csv\x27)"
      (by decide) (by decide)).1 rfl,
    (import_routed_through_bounded_executor envW "csv" "t1" "/tmp/a.csv"
      "CREATE TABLE t1 AS SELECT * FROM read_csv(\x27/tmp/a.csv\x27)"
      (by decide) (by decide)).2.1 rfl [[.text "plan"]] rfl,
    (import_routed_through_bounded_executor envCat "csv" "t1" "/tmp/a.csv"
      "CREATE TABLE t1 AS SELECT * FROM read_csv(\x27/tmp/a.csv\x27)"
      (by decide) (by decide)).2.2 rfl
      (.catalogException "Table with name missing does not exist!") rfl⟩

/-- C9 counterexample: a summary row with ten columns has fewer than
twelve columns, yet the positional mapping raises `IndexError` instead of
reporting `mode` as null — `get_table_schema_and_stats` errors on it. -/
theorem short_summary_row_errors_cex :
    r10.length < 12
    ∧ buildStat r10 = .error .indexError
    ∧ get_table_schema_and_stats envStats "t" = .error .indexError := by
  refine ⟨by decide, by decide, by decide⟩

/-- C9 amended: for summary rows with exactly eleven columns (at least the
eleven unguarded positions but fewer than twelve), the statistic record is
built with the first eleven positions assigned positionally (column name,
count, distinct count, null count, min, max, mean, std-dev, p25, p50,
p75) and `mode` reported as null rather than erroring; rows shorter than
eleven columns instead fail with `IndexError`. -/
theorem eleven_column_summary_row_mode_null
    (v0 v1 v2 v3 v4 v5 v6 v7 v8 v9 v10 : Value) :
    ([v0, v1, v2, v3, v4, v5, v6, v7, v8, v9, v10] : List Value).length < 12
    ∧ buildStat [v0, v1, v2, v3, v4, v5, v6, v7, v8, v9, v10]
        = .ok ⟨v0, v1, v2, v3, v4, v5, v6, v7, v8, v9, v10, none⟩ :=
  ⟨by simp, rfl⟩

/-- C10: the tool-layer `execute_query` of `mcp.py` returns Python `None`
whenever the underlying `safe_execute_query` succeeds — even a fully
fetched row set is discarded and never delivered through this tool —
while every error (Forbidden, Timeout, engine failures) propagates
unchanged. -/
theorem execute_query_tool_discards_result (env : Env) (q : String) :
    (∀ v, (safe_execute_query env q).2 = .ok v → execute_query env q = .ok none)
    ∧ (∀ e, (safe_execute_query env q).2 = .error e →
        execute_query env q = .error e) := by
  constructor <;> intro x hx <;> simp [execute_query, hx]

/-- Witness for C10: a successfully fetched SELECT yields `None` through
the tool, and a denied statement's Forbidden error propagates. -/
theorem execute_query_tool_discards_result_witness :
    execute_query envW "SELECT 1" = .ok none
    ∧ execute_query envW "DROP TABLE authors"
      = .error (.valueError forbiddenMsg) :=
  ⟨(execute_query_tool_discards_result envW "SELECT 1").1
      (.rows [[.text "plan"]]) (by decide),
    (execute_query_tool_discards_result envW "DROP TABLE authors").2
      (.valueError forbiddenMsg) (by decide)⟩
